import Mathlib

set_option maxRecDepth 8192

/-!
Verification development for the vimgym modal-editor simulator.

The Python sources under `src/vimgym/` are shallowly embedded here:
mutable objects become Lean structures, mutating methods become functions
returning the updated structure (paired with the Python return value),
and a Python statement that would raise an uncaught exception is modelled
in the `Except` monad, carrying the exception message together with the
state at the moment of the raise (Python mutations performed before the
raise persist).

Python strings are modelled as `List Char` (named `Str`), so that every
string operation the code uses (slicing, splitting on newlines, joining,
length) is structurally recursive and evaluates inside the kernel; the
helper `str` converts a Lean string literal to this representation.

Stacks that Python represents as lists with `append`/`pop` at the end are
represented as Lean lists with the newest element at the HEAD, so Python
`append(x)` becomes `x :: s`, Python `pop()` takes the head, and Python
`s[-n:]` (keep the newest n) becomes `s.take n`.  Lists that Python only
appends to (such as `mode_history`) keep Python's order.

Python `str.isalnum` / `str.isspace` / `str.isprintable` are modelled by
their ASCII behaviour (`Char.isAlphanum`, `Char.isWhitespace`, and a
not-a-control-character test); every key and buffer text exercised by
the claims is ASCII.
-/

namespace VimGym

/-- Python strings, as plain character lists. -/
abbrev Str := List Char

/-- A Lean string literal, as a `Str`. -/
def str (s : String) : Str := s.data

/-- Python `s.split(c)` for a single-character separator: always returns
at least one piece, with empty pieces kept. -/
def pySplitChar (c : Char) : Str → List Str
  | [] => [[]]
  | x :: xs =>
    if x = c then [] :: pySplitChar c xs
    else
      match pySplitChar c xs with
      | [] => [[x]]
      | piece :: rest => (x :: piece) :: rest

/-- Python `sep.join(pieces)`. -/
def pyJoin (sep : Str) (pieces : List Str) : Str :=
  match pieces with
  | [] => []
  | p :: rest => p ++ rest.foldl (fun acc q => acc ++ sep ++ q) []

/-- Python slice `s[a:c]`. -/
def pySlice (s : Str) (a c : Nat) : Str :=
  (s.take c).drop a

/-- Python `str(n)` for a natural number. -/
def natStr (n : Nat) : Str :=
  Nat.toDigits 10 n

/-- Python `int(s)` for an all-digit string. -/
def strToNat (s : Str) : Nat :=
  s.foldl (fun acc c => acc * 10 + (c.toNat - 48)) 0

/-- Python `s.isdigit()`. -/
def pyIsDigit (s : Str) : Bool :=
  ¬ s.isEmpty ∧ s.all Char.isDigit

/-- Python `ch.isprintable()` for an ASCII character. -/
def pyIsPrintableChar (ch : Char) : Bool :=
  32 ≤ ch.toNat ∧ ch.toNat ≠ 127

/-- Python `s.isprintable()`. -/
def pyIsPrintable (s : Str) : Bool :=
  s.all pyIsPrintableChar

/-- `simulator/buffer.py` `BufferState`: a saved snapshot for undo/redo. -/
structure BufferState where
  lines : List Str
  cursor_pos : Nat × Nat
  description : Str
deriving DecidableEq

/-- `simulator/buffer.py` `VimBuffer`: the text buffer with undo/redo.
`undo_stack` and `redo_stack` keep the newest snapshot at the head. -/
structure VimBuffer where
  lines : List Str
  cursor_pos : Nat × Nat
  visual_start : Option (Nat × Nat)
  visual_end : Option (Nat × Nat)
  undo_stack : List BufferState
  redo_stack : List BufferState
  max_undo_levels : Nat
  modified : Bool
  filename : Option Str
deriving DecidableEq

/-- `VimBuffer.save_state`: push the current state on the undo stack,
trim the stack to the newest `max_undo_levels` entries, clear redo. -/
def VimBuffer.save_state (b : VimBuffer) (description : Str) : VimBuffer :=
  { b with
    undo_stack :=
      (BufferState.mk b.lines b.cursor_pos description :: b.undo_stack).take b.max_undo_levels
    redo_stack := [] }

/-- `VimBuffer.undo`: refuse when at most the initial snapshot remains,
otherwise push the current state on redo and restore the popped snapshot.
Returns Python's `bool` result paired with the updated buffer. -/
def VimBuffer.undo (b : VimBuffer) : Bool × VimBuffer :=
  if b.undo_stack.length ≤ 1 then (false, b)
  else
    match b.undo_stack with
    | [] => (false, b)
    | previous_state :: rest =>
      (true,
        { b with
          redo_stack := BufferState.mk b.lines b.cursor_pos (str "Current state") :: b.redo_stack
          undo_stack := rest
          lines := previous_state.lines
          cursor_pos := previous_state.cursor_pos })

/-- `VimBuffer.redo`.  The Python body first calls
`self.save_state("Redo operation")` — which CLEARS the redo stack — and
then executes `self.redo_stack.pop()`, so whenever the redo stack was
non-empty the `pop` acts on an empty list and raises `IndexError`.  The
error carries the buffer state at the raise (the save already happened). -/
def VimBuffer.redo (b : VimBuffer) : Except (Str × VimBuffer) (Bool × VimBuffer) :=
  if b.redo_stack.isEmpty then .ok (false, b)
  else
    let b1 := b.save_state (str "Redo operation")
    match b1.redo_stack with
    | [] => .error (str "pop from empty list", b1)
    | next_state :: rest =>
      .ok (true,
        { b1 with
          redo_stack := rest
          lines := next_state.lines
          cursor_pos := next_state.cursor_pos })

/-- `VimBuffer.get_line`: line by 0-based index, `None` when out of range. -/
def VimBuffer.get_line (b : VimBuffer) (line_num : Nat) : Option Str :=
  if line_num < b.lines.length then some (b.lines.getD line_num []) else none

/-- `VimBuffer.get_line_count`. -/
def VimBuffer.get_line_count (b : VimBuffer) : Nat :=
  b.lines.length

/-- `VimBuffer.get_content`: all lines joined with newlines. -/
def VimBuffer.get_content (b : VimBuffer) : Str :=
  pyJoin (str "\n") b.lines

/-- `VimBuffer.set_content`: snapshot, then replace the whole content and
home the cursor.  The Python method returns `None`. -/
def VimBuffer.set_content (b : VimBuffer) (content : Str) : VimBuffer :=
  let b1 := b.save_state (str "Set buffer content")
  { b1 with
    lines := if ¬ content.isEmpty then pySplitChar '\n' content else [[]]
    cursor_pos := (0, 0)
    modified := true }

/-- `VimBuffer.is_valid_position`: line in range and column at most the
line's length.  (Python also rejects negative values; indices are `Nat`.) -/
def VimBuffer.is_valid_position (b : VimBuffer) (line col : Nat) : Bool :=
  if line ≥ b.lines.length then false
  else col ≤ (b.lines.getD line []).length

/-- `VimBuffer.clamp_position`. -/
def VimBuffer.clamp_position (b : VimBuffer) (line col : Nat) : Nat × Nat :=
  let line1 := min line (b.lines.length - 1)
  let col1 := min col ((b.lines.getD line1 []).length)
  (line1, col1)

/-- One iteration of the `for` loop in `VimBuffer.move_cursor`, acting on
`(line, col, moved)`.  The buffer's lines do not change during the loop. -/
def moveCursorStep (lines : List Str) (direction : String) :
    Nat × Nat × Bool → Nat × Nat × Bool :=
  fun st =>
    let line := st.1
    let col := st.2.1
    let moved := st.2.2
    if direction = "up" ∧ line > 0 then
      (line - 1, min col (lines.getD (line - 1) []).length, true)
    else if direction = "down" ∧ line < lines.length - 1 then
      (line + 1, min col (lines.getD (line + 1) []).length, true)
    else if direction = "left" ∧ col > 0 then
      (line, col - 1, true)
    else if direction = "right" then
      if col < (lines.getD line []).length then (line, col + 1, true)
      else (line, col, moved)
    else (line, col, moved)

/-- `VimBuffer.move_cursor`: move `count` steps in one of
`up/down/left/right`, clamping the column on vertical moves; returns
whether any step moved. -/
def VimBuffer.move_cursor (b : VimBuffer) (direction : String) (count : Nat) :
    Bool × VimBuffer :=
  let st := Nat.repeat (moveCursorStep b.lines direction) count
    (b.cursor_pos.1, b.cursor_pos.2, false)
  (st.2.2, { b with cursor_pos := (st.1, st.2.1) })

/-- `VimBuffer.move_to_position`: commit only when the target is valid. -/
def VimBuffer.move_to_position (b : VimBuffer) (line col : Nat) : Bool × VimBuffer :=
  if b.is_valid_position line col then (true, { b with cursor_pos := (line, col) })
  else (false, b)

/-- The new line list built by the multi-line branch of
`VimBuffer.insert_text`: replace line `line` with `before ++ first`,
then insert the remaining pieces one by one at `line+1, line+2, …`
(Python's `self.lines.insert(line + i, line_text)` loop), then append
`after` to the last inserted piece at index `line + pieces.length - 1`. -/
def insertTextLines (lines : List Str) (line : Nat) (before after : Str)
    (pieces : List Str) : List Str :=
  let step1 := lines.set line (before ++ pieces.headD [])
  let step2 := (List.range (pieces.length - 1)).foldl
    (fun acc i => acc.insertIdx (line + (i + 1)) (pieces.getD (i + 1) [])) step1
  if pieces.length > 1 then
    let last_line_idx := line + pieces.length - 1
    step2.set last_line_idx ((step2.getD last_line_idx []) ++ after)
  else step2

/-- `VimBuffer.insert_text`: refuse empty text, snapshot, then splice the
text in at the cursor (splitting on embedded newlines).  Cursor indexing
`self.lines[line]` is in range for every buffer the program builds (the
cursor's line index is an invariant); `getD` supplies the default. -/
def VimBuffer.insert_text (b : VimBuffer) (text : Str) : Bool × VimBuffer :=
  if text.isEmpty then (false, b)
  else
    let b1 := b.save_state
      (str "Insert text: '" ++ text.take 20 ++
        (if text.length > 20 then str "..." else []) ++ str "'")
    let line := b1.cursor_pos.1
    let col := b1.cursor_pos.2
    let current_line := b1.lines.getD line []
    if text.contains '\n' then
      let lines_to_insert := pySplitChar '\n' text
      let new_lines := insertTextLines b1.lines line
        (current_line.take col) (current_line.drop col) lines_to_insert
      if lines_to_insert.length > 1 then
        let last_line_idx := line + lines_to_insert.length - 1
        (true, { b1 with
          lines := new_lines
          cursor_pos := (last_line_idx, (lines_to_insert.getLastD []).length)
          modified := true })
      else
        (true, { b1 with
          lines := new_lines
          cursor_pos := (line, col + text.length)
          modified := true })
    else
      (true, { b1 with
        lines := b1.lines.set line (current_line.take col ++ text ++ current_line.drop col)
        cursor_pos := (line, col + text.length)
        modified := true })

/-- `VimBuffer.delete_char_at_cursor`: delete under the cursor, or join
with the next line when at end of line; no-op at the buffer's very end. -/
def VimBuffer.delete_char_at_cursor (b : VimBuffer) : Bool × VimBuffer :=
  let line := b.cursor_pos.1
  let col := b.cursor_pos.2
  let current_line := b.lines.getD line []
  if col < current_line.length then
    let b1 := b.save_state (str "Delete character")
    (true, { b1 with
      lines := b1.lines.set line (current_line.take col ++ current_line.drop (col + 1))
      modified := true })
  else if line < b.lines.length - 1 then
    let b1 := b.save_state (str "Join lines")
    let next_line := b1.lines.getD (line + 1) []
    (true, { b1 with
      lines := (b1.lines.set line (current_line ++ next_line)).eraseIdx (line + 1)
      modified := true })
  else (false, b)

/-- `VimBuffer.delete_char_before_cursor` (backspace): delete to the left,
or join the current line onto the previous one when at column 0. -/
def VimBuffer.delete_char_before_cursor (b : VimBuffer) : Bool × VimBuffer :=
  let line := b.cursor_pos.1
  let col := b.cursor_pos.2
  if col > 0 then
    let b1 := b.save_state (str "Backspace")
    let current_line := b1.lines.getD line []
    (true, { b1 with
      lines := b1.lines.set line (current_line.take (col - 1) ++ current_line.drop col)
      cursor_pos := (line, col - 1)
      modified := true })
  else if line > 0 then
    let b1 := b.save_state (str "Join with previous line")
    let current_line := b1.lines.getD line []
    let previous_line := b1.lines.getD (line - 1) []
    (true, { b1 with
      lines := (b1.lines.set (line - 1) (previous_line ++ current_line)).eraseIdx line
      cursor_pos := (line - 1, previous_line.length)
      modified := true })
  else (false, b)

/-- `VimBuffer.delete_line`: delete line `line_num?` (the cursor's line
when `none`).  When it is the only line it is cleared to empty instead —
and, exactly as in the source, the cursor is NOT adjusted in that branch;
in the other branch the cursor is clamped to stay valid. -/
def VimBuffer.delete_line (b : VimBuffer) (line_num? : Option Nat) : Bool × VimBuffer :=
  let line_num := line_num?.getD b.cursor_pos.1
  if line_num < b.lines.length then
    let b1 := b.save_state (str "Delete line " ++ natStr (line_num + 1))
    if b1.lines.length = 1 then
      (true, { b1 with lines := b1.lines.set 0 [], modified := true })
    else
      let new_lines := b1.lines.eraseIdx line_num
      let line1 := if line_num ≥ new_lines.length then new_lines.length - 1 else line_num
      let col := min b1.cursor_pos.2 (new_lines.getD line1 []).length
      (true, { b1 with
        lines := new_lines
        cursor_pos := (line1, col)
        modified := true })
  else (false, b)

/-- `VimBuffer.insert_line_below`: splice a line after the cursor's line
and move the cursor to its end. -/
def VimBuffer.insert_line_below (b : VimBuffer) (content : Str) : Bool × VimBuffer :=
  let b1 := b.save_state (str "Insert line below")
  let line := b1.cursor_pos.1
  (true, { b1 with
    lines := b1.lines.insertIdx (line + 1) content
    cursor_pos := (line + 1, content.length)
    modified := true })

/-- `VimBuffer.insert_line_above`. -/
def VimBuffer.insert_line_above (b : VimBuffer) (content : Str) : Bool × VimBuffer :=
  let b1 := b.save_state (str "Insert line above")
  let line := b1.cursor_pos.1
  (true, { b1 with
    lines := b1.lines.insertIdx line content
    cursor_pos := (line, content.length)
    modified := true })

/-- `VimBuffer.get_visual_selection`: `None` without both anchors,
otherwise the selected text with reversed anchors normalized. -/
def VimBuffer.get_visual_selection (b : VimBuffer) : Option Str :=
  match b.visual_start, b.visual_end with
  | some s, some e =>
    let sw := if s.1 > e.1 ∨ (s.1 = e.1 ∧ s.2 > e.2) then e else s
    let ew := if s.1 > e.1 ∨ (s.1 = e.1 ∧ s.2 > e.2) then s else e
    if sw.1 = ew.1 then
      some (pySlice (b.lines.getD sw.1 []) sw.2 (ew.2 + 1))
    else
      some (pyJoin (str "\n")
        (((b.lines.getD sw.1 []).drop sw.2 ::
          (List.range (ew.1 - (sw.1 + 1))).map (fun i => b.lines.getD (sw.1 + 1 + i) []))
          ++ [(b.lines.getD ew.1 []).take (ew.2 + 1)]))
  | _, _ => none

/-- `VimBuffer.start_visual_selection`. -/
def VimBuffer.start_visual_selection (b : VimBuffer) : VimBuffer :=
  { b with visual_start := some b.cursor_pos, visual_end := some b.cursor_pos }

/-- `VimBuffer.update_visual_selection`. -/
def VimBuffer.update_visual_selection (b : VimBuffer) : VimBuffer :=
  if b.visual_start.isSome then { b with visual_end := some b.cursor_pos } else b

/-- `VimBuffer.clear_visual_selection`. -/
def VimBuffer.clear_visual_selection (b : VimBuffer) : VimBuffer :=
  { b with visual_start := none, visual_end := none }

/-- The dictionary produced by `VimBuffer.get_state`. -/
structure BufferStateDict where
  lines : List Str
  cursor_pos : Nat × Nat
  visual_start : Option (Nat × Nat)
  visual_end : Option (Nat × Nat)
  modified : Bool
  filename : Option Str
deriving DecidableEq

/-- `VimBuffer.get_state`. -/
def VimBuffer.get_state (b : VimBuffer) : BufferStateDict :=
  { lines := b.lines
    cursor_pos := b.cursor_pos
    visual_start := b.visual_start
    visual_end := b.visual_end
    modified := b.modified
    filename := b.filename }

/-- `VimBuffer.restore_state`: overwrite the observable fields from the
dictionary, then clamp the cursor to the restored lines.  The undo and
redo stacks are untouched. -/
def VimBuffer.restore_state (b : VimBuffer) (state : BufferStateDict) : VimBuffer :=
  let b1 := { b with
    lines := state.lines
    cursor_pos := state.cursor_pos
    visual_start := state.visual_start
    visual_end := state.visual_end
    modified := state.modified
    filename := state.filename }
  { b1 with cursor_pos := b1.clamp_position b1.cursor_pos.1 b1.cursor_pos.2 }

/-- `VimBuffer.__init__`: split the content into lines (one empty line
for empty content), push the initial snapshot, and only then initialise
the metadata fields (`modified = False`, `filename = None`). -/
def VimBuffer.init (content : Str) : VimBuffer :=
  let b : VimBuffer :=
    { lines := if ¬ content.isEmpty then pySplitChar '\n' content else [[]]
      cursor_pos := (0, 0)
      visual_start := none
      visual_end := none
      undo_stack := []
      redo_stack := []
      max_undo_levels := 100
      modified := false
      filename := none }
  b.save_state (str "Initial buffer state")

/-! ## `simulator/modes.py` -/

/-- `VimMode`. -/
inductive VimMode where
  | normal
  | insert
  | visual
  | visual_line
  | visual_block
  | command
  | replace
deriving DecidableEq

/-- The `.value` string of a `VimMode`. -/
def VimMode.val : VimMode → Str
  | .normal => str "normal"
  | .insert => str "insert"
  | .visual => str "visual"
  | .visual_line => str "visual_line"
  | .visual_block => str "visual_block"
  | .command => str "command"
  | .replace => str "replace"

/-- `VimMode(value)`: parse a value string, `none` on `ValueError`. -/
def VimMode.fromVal (s : Str) : Option VimMode :=
  if s = str "normal" then some .normal
  else if s = str "insert" then some .insert
  else if s = str "visual" then some .visual
  else if s = str "visual_line" then some .visual_line
  else if s = str "visual_block" then some .visual_block
  else if s = str "command" then some .command
  else if s = str "replace" then some .replace
  else none

/-- `ModeManager._build_transition_map`, as a total function (the Python
`dict.get(current, set())` lookup can never miss: every mode is a key). -/
def valid_transitions : VimMode → List VimMode
  | .normal => [.insert, .visual, .visual_line, .visual_block, .command, .replace]
  | .insert => [.normal]
  | .visual => [.normal, .insert, .visual_line, .visual_block]
  | .visual_line => [.normal, .insert, .visual, .visual_block]
  | .visual_block => [.normal, .insert, .visual, .visual_line]
  | .command => [.normal]
  | .replace => [.normal]

/-- `ModeManager.mode_commands`: the key → target-mode table. -/
def mode_commands : List (Str × VimMode) :=
  [ (str "i", .insert), (str "I", .insert), (str "a", .insert), (str "A", .insert),
    (str "o", .insert), (str "O", .insert), (str "c", .insert), (str "C", .insert),
    (str "s", .insert), (str "S", .insert),
    (str "v", .visual), (str "V", .visual_line), (str "\x16", .visual_block),
    (str ":", .command), (str "/", .command), (str "?", .command),
    (str "R", .replace),
    (str "\x1b", .normal), (str "\x03", .normal) ]

/-- `ModeManager` state (`valid_transitions` and `mode_commands` are
static tables, kept outside the structure). -/
structure ModeManager where
  current_mode : VimMode
  previous_mode : VimMode
  mode_history : List VimMode
deriving DecidableEq

/-- `ModeManager.__init__` / `ModeManager.reset`. -/
def ModeManager.init : ModeManager :=
  { current_mode := .normal, previous_mode := .normal, mode_history := [.normal] }

/-- `ModeManager.can_transition_to`. -/
def ModeManager.can_transition_to (m : ModeManager) (target_mode : VimMode) : Bool :=
  (valid_transitions m.current_mode).contains target_mode

/-- `ModeManager.switch_mode`: transition iff legal, append to history,
trim the history to the newest 50 once it exceeds 100 entries. -/
def ModeManager.switch_mode (m : ModeManager) (target_mode : VimMode) : Bool × ModeManager :=
  if ¬ m.can_transition_to target_mode then (false, m)
  else
    let history := m.mode_history ++ [target_mode]
    (true,
      { current_mode := target_mode
        previous_mode := m.current_mode
        mode_history := if history.length > 100 then history.drop (history.length - 50) else history })

/-- `ModeManager.process_command`: look the key up in `mode_commands`
and switch when found. -/
def ModeManager.process_command (m : ModeManager) (command : Str) : Bool × ModeManager :=
  match (mode_commands.find? (fun p => p.1 = command)) with
  | some p => m.switch_mode p.2
  | none => (false, m)

/-- `ModeManager.is_visual_mode`. -/
def ModeManager.is_visual_mode (m : ModeManager) : Bool :=
  m.current_mode = VimMode.visual ∨ m.current_mode = VimMode.visual_line ∨
    m.current_mode = VimMode.visual_block

/-- The dictionary produced by `ModeManager.get_state` (mode values as
their `.value` strings, history truncated to the newest 10). -/
structure ModeStateDict where
  current_mode : Str
  previous_mode : Str
  mode_history : List Str
deriving DecidableEq

/-- `ModeManager.get_state`. -/
def ModeManager.get_state (m : ModeManager) : ModeStateDict :=
  { current_mode := m.current_mode.val
    previous_mode := m.previous_mode.val
    mode_history := (m.mode_history.drop (m.mode_history.length - 10)).map VimMode.val }

/-- The list comprehension `[VimMode(mode) for mode in history]`: `none`
when any entry fails to parse (Python's `ValueError`). -/
def parseModes : List Str → Option (List VimMode)
  | [] => some []
  | s :: rest =>
    match VimMode.fromVal s, parseModes rest with
    | some m, some ms => some (m :: ms)
    | _, _ => none

/-- `ModeManager.restore_state`: parse the serialized modes; any
`ValueError` (an unknown mode string) resets to the default state. -/
def ModeManager.restore_state (_m : ModeManager) (state : ModeStateDict) : ModeManager :=
  match VimMode.fromVal state.current_mode, VimMode.fromVal state.previous_mode,
      parseModes state.mode_history with
  | some c, some p, some h => { current_mode := c, previous_mode := p, mode_history := h }
  | _, _, _ => ModeManager.init

/-- `ModeManager.get_mode_display_name` (for the current mode). -/
def VimMode.display_name : VimMode → Str
  | .normal => str "NORMAL"
  | .insert => str "INSERT"
  | .visual => str "VISUAL"
  | .visual_line => str "VISUAL LINE"
  | .visual_block => str "VISUAL BLOCK"
  | .command => str "COMMAND"
  | .replace => str "REPLACE"

/-! ## `simulator/commands.py` -/

/-- `CommandResult`. -/
structure CommandResult where
  success : Bool
  message : Str := []
  mode_changed : Bool := false
  new_mode : Option VimMode := none
  cursor_moved : Bool := false
  buffer_modified : Bool := false
  error : Option Str := none
deriving DecidableEq

/-- The mutable fields of `VimCommandProcessor` (the command tables are
static and kept outside the structure). -/
structure VimCommandProcessor where
  command_history : List Str
  last_command : Str
  repeat_count : Nat
  pending_operator : Option Str
  awaiting_motion : Bool
  search_pattern : Str
  command_buffer : Str
deriving DecidableEq

/-- `VimCommandProcessor.__init__` (the mutable fields). -/
def VimCommandProcessor.init : VimCommandProcessor :=
  { command_history := []
    last_command := []
    repeat_count := 1
    pending_operator := none
    awaiting_motion := false
    search_pattern := []
    command_buffer := [] }

/-- The processor's view of the simulator: the buffer and mode manager it
shares with `VimSimulator`, plus its own mutable fields. -/
structure SimCore where
  buffer : VimBuffer
  mode_manager : ModeManager
  proc : VimCommandProcessor
deriving DecidableEq

/-- The key set of `_build_normal_command_map`, in source order. -/
def normalCommandKeys : List Str :=
  [ str "h", str "j", str "k", str "l",
    str "w", str "b", str "e", str "W", str "B", str "E",
    str "0", str "^", str "$", str "g_",
    str "gg", str "G",
    str "x", str "X", str "dd", str "D", str "yy", str "Y", str "p", str "P",
    str "cc", str "C", str "cw", str "s", str "S", str "r",
    str "u", str "\x12",
    str "i", str "I", str "a", str "A", str "o", str "O",
    str "v", str "V", str "\x16",
    str "/", str "?", str "n", str "N", str "*", str "#" ]

/-- The key set of `_build_movement_command_map`. -/
def movementCommandKeys : List Str :=
  [ str "h", str "j", str "k", str "l", str "w", str "b", str "e",
    str "0", str "^", str "$" ]

/-- A bounded forward scan: Python `while col < len(s) and p(s[col]): col += 1`.
The fuel starts at `s.length`, which bounds the number of iterations, so
the result is exactly the Python loop's final `col`. -/
def scanFwdAux (s : Str) (p : Char → Bool) : Nat → Nat → Nat
  | 0, col => col
  | fuel + 1, col =>
    if col < s.length ∧ p (s.getD col ' ') then scanFwdAux s p fuel (col + 1) else col

/-- Python `while col < len(s) and p(s[col]): col += 1`. -/
def scanFwd (s : Str) (p : Char → Bool) (col : Nat) : Nat :=
  scanFwdAux s p s.length col

/-- Python `while col > 0 and p(s, col): col -= 1`. -/
def scanBwd (s : Str) (p : Str → Nat → Bool) : Nat → Nat
  | 0 => 0
  | n + 1 => if p s (n + 1) then scanBwd s p n else n + 1

/-- `VimCommandProcessor._move_to_next_word_start`: skip non-alphanumeric
characters, then the alphanumeric run, then non-alphanumeric characters
again; past end of line, hop to the start of the next line if any. -/
def VimBuffer.move_to_next_word_start (b : VimBuffer) : VimBuffer :=
  let line := b.cursor_pos.1
  let col := b.cursor_pos.2
  let current_line? := b.get_line line
  let cl := current_line?.getD []
  let col1 :=
    if current_line?.isSome ∧ ¬ cl.isEmpty ∧ col < cl.length then
      let a1 := scanFwd cl (fun c => ¬ c.isAlphanum) col
      let a2 := scanFwd cl (fun c => c.isAlphanum) a1
      scanFwd cl (fun c => ¬ c.isAlphanum) a2
    else col
  if col1 ≥ cl.length then
    if line < b.get_line_count - 1 then (b.move_to_position (line + 1) 0).2 else b
  else (b.move_to_position line col1).2

/-- `VimCommandProcessor._move_to_prev_word_start`. -/
def VimBuffer.move_to_prev_word_start (b : VimBuffer) : VimBuffer :=
  let line := b.cursor_pos.1
  let col := b.cursor_pos.2
  if col > 0 then
    let col1 := col - 1
    let current_line? := b.get_line line
    let cl := current_line?.getD []
    let col2 :=
      if current_line?.isSome ∧ ¬ cl.isEmpty then
        let a1 := scanBwd cl (fun s i => ¬ (s.getD i ' ').isAlphanum) col1
        scanBwd cl (fun s i => (s.getD (i - 1) ' ').isAlphanum) a1
      else col1
    (b.move_to_position line col2).2
  else if line > 0 then
    let prev := (b.get_line (line - 1)).getD []
    (b.move_to_position (line - 1) prev.length).2
  else (b.move_to_position line col).2

/-- `VimCommandProcessor._move_to_word_end`. -/
def VimBuffer.move_to_word_end (b : VimBuffer) : VimBuffer :=
  let line := b.cursor_pos.1
  let col := b.cursor_pos.2
  let current_line? := b.get_line line
  let cl := current_line?.getD []
  let col3 :=
    if current_line?.isSome ∧ ¬ cl.isEmpty ∧ col < cl.length then
      let a1 :=
        if ¬ (cl.getD col ' ').isAlphanum then scanFwd cl (fun c => ¬ c.isAlphanum) col
        else col
      let a2 := scanFwd cl (fun c => c.isAlphanum) a1
      if a2 > 0 then a2 - 1 else a2
    else col
  (b.move_to_position line col3).2

/-- `VimCommandProcessor._move_to_first_nonblank` (on the buffer). -/
def VimBuffer.move_to_first_nonblank (b : VimBuffer) : VimBuffer :=
  let line := b.cursor_pos.1
  let cl := (b.get_line line).getD []
  (b.move_to_position line (scanFwd cl Char.isWhitespace 0)).2

/-- `VimCommandProcessor._move_to_line_end` (on the buffer): column
`max(0, len - 1)`. -/
def VimBuffer.move_to_line_end (b : VimBuffer) : VimBuffer :=
  let line := b.cursor_pos.1
  let cl := (b.get_line line).getD []
  (b.move_to_position line (cl.length - 1)).2

/-- Python `col = len(s) - 1; while col >= 0 and s[col].isspace(): col -= 1`,
called with the length as the starting point (`n` stands for `col + 1`,
so `0` is the loop having walked past the front, Python's `col == -1`). -/
def lastNonblankScan (s : Str) : Nat → Int
  | 0 => -1
  | n + 1 => if (s.getD n ' ').isWhitespace then lastNonblankScan s n else (n : Int)

/-- `VimCommandProcessor._move_to_last_nonblank` (on the buffer). -/
def VimBuffer.move_to_last_nonblank (b : VimBuffer) : VimBuffer :=
  let line := b.cursor_pos.1
  let cl := (b.get_line line).getD []
  (b.move_to_position line (max 0 (lastNonblankScan cl cl.length)).toNat).2

/-- `VimCommandProcessor._go_to_line` (on the buffer): `-1` means the last
line; the target is clamped into range and the column homed. -/
def VimBuffer.go_to_line (b : VimBuffer) (line_num : Int) : VimBuffer :=
  let ln := if line_num = -1 then (b.get_line_count : Int) else line_num
  let target := max 0 (min (ln - 1) ((b.get_line_count : Int) - 1))
  (b.move_to_position target.toNat 0).2

/-- `VimCommandProcessor._substitute_line` (on the buffer): blank the
cursor's line in place and home the column (no snapshot is taken). -/
def VimBuffer.substitute_line (b : VimBuffer) : VimBuffer :=
  let line := b.cursor_pos.1
  { b with lines := b.lines.set line [], cursor_pos := (line, 0) }

/-- One step of `_move_word`'s loop, dispatching on the direction. -/
def moveWordOnce (direction : String) (b : VimBuffer) : VimBuffer :=
  if direction = "forward" then b.move_to_next_word_start
  else if direction = "backward" then b.move_to_prev_word_start
  else if direction = "end" then b.move_to_word_end
  else b

/-- A normal-mode command handler: Python closures over `self` become
functions on `SimCore`; an uncaught Python exception becomes `.error`
with the state at the raise. -/
abbrev Handler := SimCore → Except (Str × SimCore) SimCore

/-- Discard the buffer's `bool` result and keep the new buffer. -/
def onBuffer (f : VimBuffer → Bool × VimBuffer) : Handler :=
  fun core => .ok { core with buffer := (f core.buffer).2 }

/-- Apply a pure buffer transformation. -/
def onBufferPure (f : VimBuffer → VimBuffer) : Handler :=
  fun core => .ok { core with buffer := f core.buffer }

/-- Switch mode, discarding the `bool` result (as the handlers do). -/
def switchModeIn (target : VimMode) (core : SimCore) : SimCore :=
  { core with mode_manager := (core.mode_manager.switch_mode target).2 }

/-- `_move_cursor`: moves by the CURRENT `repeat_count` in one call. -/
def handleMoveCursor (direction : String) : Handler :=
  fun core =>
    .ok { core with buffer := (core.buffer.move_cursor direction core.proc.repeat_count).2 }

/-- `_move_word` / `_move_WORD`: loops `repeat_count` times itself (and
`_move_WORD` simply delegates to `_move_word`, so `W`/`B`/`E` behave
exactly like `w`/`b`/`e`). -/
def handleMoveWord (direction : String) : Handler :=
  fun core =>
    .ok { core with buffer := Nat.repeat (moveWordOnce direction) core.proc.repeat_count core.buffer }

/-- `_redo`: `VimBuffer.redo` raises `IndexError`; the partial mutation
(the `save_state` call) survives into the raised state. -/
def handleRedo : Handler :=
  fun core =>
    match core.buffer.redo with
    | .ok r => .ok { core with buffer := r.2 }
    | .error e => .error (e.1, { core with buffer := e.2 })

/-- The body of each closure in `_build_normal_command_map`, keyed by the
command string.  The default branch is unreachable: the caller only
dispatches keys that are in `normalCommandKeys`. -/
def handlerFor (cmd : Str) : Handler :=
  match cmd with
  | ['h'] => handleMoveCursor "left"
  | ['j'] => handleMoveCursor "down"
  | ['k'] => handleMoveCursor "up"
  | ['l'] => handleMoveCursor "right"
  | ['w'] => handleMoveWord "forward"
  | ['b'] => handleMoveWord "backward"
  | ['e'] => handleMoveWord "end"
  | ['W'] => handleMoveWord "forward"
  | ['B'] => handleMoveWord "backward"
  | ['E'] => handleMoveWord "end"
  | ['0'] => fun core => .ok { core with buffer := (core.buffer.move_to_position core.buffer.cursor_pos.1 0).2 }
  | ['^'] => onBufferPure VimBuffer.move_to_first_nonblank
  | ['$'] => onBufferPure VimBuffer.move_to_line_end
  | ['g', '_'] => onBufferPure VimBuffer.move_to_last_nonblank
  | ['g', 'g'] => onBufferPure (fun b => b.go_to_line 1)
  | ['G'] => onBufferPure (fun b => b.go_to_line (-1))
  | ['x'] => onBuffer VimBuffer.delete_char_at_cursor
  | ['X'] => onBuffer VimBuffer.delete_char_before_cursor
  | ['d', 'd'] => onBuffer (fun b => b.delete_line none)
  | ['D'] => fun core => .ok core
  | ['y', 'y'] => fun core => .ok core
  | ['Y'] => fun core => .ok core
  | ['p'] => fun core => .ok core
  | ['P'] => fun core => .ok core
  | ['c', 'c'] => fun core =>
      .ok (switchModeIn .insert
        { core with buffer := (((core.buffer.delete_line none).2).insert_line_below []).2 })
  | ['C'] => fun core => .ok (switchModeIn .insert core)
  | ['c', 'w'] => fun core => .ok (switchModeIn .insert core)
  | ['s'] => fun core =>
      .ok (switchModeIn .insert { core with buffer := (core.buffer.delete_char_at_cursor).2 })
  | ['S'] => fun core => .ok (switchModeIn .insert { core with buffer := core.buffer.substitute_line })
  | ['r'] => fun core => .ok (switchModeIn .replace core)
  | ['u'] => onBuffer VimBuffer.undo
  | ['\x12'] => handleRedo
  | ['i'] => fun core => .ok (switchModeIn .insert core)
  | ['I'] => fun core => .ok (switchModeIn .insert { core with buffer := core.buffer.move_to_first_nonblank })
  | ['a'] => fun core =>
      .ok (switchModeIn .insert { core with buffer := (core.buffer.move_cursor "right" 1).2 })
  | ['A'] => fun core =>
      .ok (switchModeIn .insert
        { core with buffer := ((core.buffer.move_to_line_end).move_cursor "right" 1).2 })
  | ['o'] => fun core =>
      .ok (switchModeIn .insert { core with buffer := (core.buffer.insert_line_below []).2 })
  | ['O'] => fun core =>
      .ok (switchModeIn .insert { core with buffer := (core.buffer.insert_line_above []).2 })
  | ['v'] => fun core =>
      .ok (switchModeIn .visual { core with buffer := core.buffer.start_visual_selection })
  | ['V'] => fun core =>
      .ok (switchModeIn .visual_line { core with buffer := core.buffer.start_visual_selection })
  | ['\x16'] => fun core =>
      .ok (switchModeIn .visual_block { core with buffer := core.buffer.start_visual_selection })
  | ['/'] => fun core =>
      .ok { (switchModeIn .command core) with proc := { core.proc with command_buffer := [] } }
  | ['?'] => fun core =>
      .ok { (switchModeIn .command core) with proc := { core.proc with command_buffer := [] } }
  | ['n'] => fun core => .ok core
  | ['N'] => fun core => .ok core
  | ['*'] => fun core => .ok core
  | ['#'] => fun core => .ok core
  | _ => fun core => .ok core

/-- The `for _ in range(repeat_count)` loop of `_execute_command`,
stopping at (and keeping the state of) the first raised exception. -/
def runRepeats (h : Handler) : Nat → SimCore → Except (Str × SimCore) SimCore
  | 0, c => .ok c
  | n + 1, c =>
    match h c with
    | .error e => .error e
    | .ok c1 => runRepeats h n c1

/-- `_execute_command`: run the handler `repeat_count` times inside
`try`; on success append to the history and report whether the cursor
moved, on an exception return a failure result (the partial mutations
persist, the history append is skipped). -/
def executeCommand (core : SimCore) (command_str : Str) : CommandResult × SimCore :=
  let original_pos := core.buffer.cursor_pos
  match runRepeats (handlerFor command_str) core.proc.repeat_count core with
  | .error e => ({ success := false, error := some e.1 }, e.2)
  | .ok c1 =>
    let c2 := { c1 with proc := { c1.proc with
      command_history := c1.proc.command_history ++ [command_str]
      last_command := command_str } }
    ({ success := true
       cursor_moved := decide (c2.buffer.cursor_pos ≠ original_pos)
       message := str "Executed " ++ command_str ++
         (if core.proc.repeat_count > 1 then
           str " " ++ natStr core.proc.repeat_count ++ str " times"
          else []) }, c2)

/-- `_reset_command_state`. -/
def resetCommandState (p : VimCommandProcessor) : VimCommandProcessor :=
  { p with
    repeat_count := 1
    command_buffer := []
    pending_operator := none
    awaiting_motion := false }

/-- `_process_normal_mode_key`: try the mode-command table first, then
grow the command buffer and match it against the normal-command table
(exact match executes and resets, a strict-prefix match waits, anything
else resets and reports an unknown command). -/
def processNormalModeKey (core : SimCore) (key : Str) : CommandResult × SimCore :=
  let pm := core.mode_manager.process_command key
  let core1 := { core with mode_manager := pm.2 }
  if pm.1 then
    ({ success := true
       mode_changed := true
       new_mode := some pm.2.current_mode
       message := str "Switched to " ++ pm.2.current_mode.display_name }, core1)
  else
    let cb := core1.proc.command_buffer ++ key
    let core2 := { core1 with proc := { core1.proc with command_buffer := cb } }
    if normalCommandKeys.contains cb then
      let r := executeCommand core2 cb
      (r.1, { r.2 with proc := resetCommandState r.2.proc })
    else if normalCommandKeys.any (fun c => cb.isPrefixOf c) then
      ({ success := true, message := str "Partial command: " ++ cb }, core2)
    else
      ({ success := false, error := some (str "Unknown command: " ++ key) },
        { core2 with proc := resetCommandState core2.proc })

/-- `_process_insert_mode_key` (the error message's `repr` is elided). -/
def processInsertModeKey (core : SimCore) (key : Str) : CommandResult × SimCore :=
  if key = str "\x1b" ∨ key = str "\x03" then
    ({ success := true, mode_changed := true, new_mode := some .normal
       message := str "Returned to NORMAL mode" }, switchModeIn .normal core)
  else if key = str "\r" ∨ key = str "\n" then
    ({ success := true, buffer_modified := true, message := str "New line" },
      { core with buffer := (core.buffer.insert_text (str "\n")).2 })
  else if key = str "\x08" ∨ key = str "\x7f" then
    let r := core.buffer.delete_char_before_cursor
    ({ success := r.1, buffer_modified := r.1, message := str "Backspace" },
      { core with buffer := r.2 })
  else if key.length = 1 ∧ pyIsPrintable key then
    ({ success := true, buffer_modified := true, message := str "Inserted: " ++ key },
      { core with buffer := (core.buffer.insert_text key).2 })
  else
    ({ success := false, error := some (str "Cannot handle key in insert mode: " ++ key) }, core)

/-- The tail of `_process_visual_mode_key` after the movement branch:
`d` deletes a (truthy) selection, everything else is unimplemented. -/
def visualModeTail (core : SimCore) (key : Str) : CommandResult × SimCore :=
  if key = str "d" then
    match core.buffer.get_visual_selection with
    | some sel =>
      if ¬ sel.isEmpty then
        ({ success := true, buffer_modified := true, mode_changed := true
           new_mode := some .normal, message := str "Deleted selection" },
          switchModeIn .normal { core with buffer := core.buffer.clear_visual_selection })
      else
        ({ success := false
           error := some (str "Command " ++ key ++ str " not implemented in visual mode") }, core)
    | none =>
      ({ success := false
         error := some (str "Command " ++ key ++ str " not implemented in visual mode") }, core)
  else
    ({ success := false
       error := some (str "Command " ++ key ++ str " not implemented in visual mode") }, core)

/-- `_process_visual_mode_key`. -/
def processVisualModeKey (core : SimCore) (key : Str) : CommandResult × SimCore :=
  if key = str "\x1b" ∨ key = str "\x03" then
    ({ success := true, mode_changed := true, new_mode := some .normal
       message := str "Exited visual mode" },
      switchModeIn .normal { core with buffer := core.buffer.clear_visual_selection })
  else if movementCommandKeys.contains key then
    let r := executeCommand core key
    if r.1.success then
      ({ success := true, cursor_moved := true
         message := str "Extended selection with " ++ key },
        { r.2 with buffer := r.2.buffer.update_visual_selection })
    else visualModeTail r.2 key
  else visualModeTail core key

/-- `_execute_substitute`: the `re.match(r's/([^/]*)/([^/]*)/([g]?)', …)`
prefix match succeeds exactly when at least two further `/` follow the
leading `s/`; the flag group is unused by the simulated substitute. -/
def executeSubstitute (command : Str) : CommandResult :=
  match pySplitChar '/' (command.drop 2) with
  | old_text :: new_text :: rest =>
    if rest.isEmpty then { success := false, error := some (str "Invalid substitute syntax") }
    else
      { success := true
        message := str "Substitute '" ++ old_text ++ str "' with '" ++ new_text ++
          str "' (simulated)" }
  | _ => { success := false, error := some (str "Invalid substitute syntax") }

/-- `_execute_ex_command`. -/
def executeExCommand (command : Str) : CommandResult :=
  if command.isEmpty then { success := true, message := str "Empty command" }
  else if command = str "q" then { success := true, message := str "Quit (simulated)" }
  else if command = str "w" then { success := true, message := str "Write (simulated)" }
  else if command = str "wq" then { success := true, message := str "Write and quit (simulated)" }
  else if (str "s/").isPrefixOf command then executeSubstitute command
  else { success := false, error := some (str "Unknown command: :" ++ command) }

/-- `_process_command_mode_key`. -/
def processCommandModeKey (core : SimCore) (key : Str) : CommandResult × SimCore :=
  if key = str "\x1b" ∨ key = str "\x03" then
    ({ success := true, mode_changed := true, new_mode := some .normal
       message := str "Cancelled command" },
      switchModeIn .normal { core with proc := { core.proc with command_buffer := [] } })
  else if key = str "\r" ∨ key = str "\n" then
    let command := core.proc.command_buffer
    let core1 := switchModeIn .normal { core with proc := { core.proc with command_buffer := [] } }
    let r := executeExCommand command
    ({ r with mode_changed := true, new_mode := some .normal }, core1)
  else if key = str "\x08" ∨ key = str "\x7f" then
    let cb :=
      if ¬ core.proc.command_buffer.isEmpty then core.proc.command_buffer.dropLast
      else core.proc.command_buffer
    ({ success := true, message := str "Command: " ++ cb },
      { core with proc := { core.proc with command_buffer := cb } })
  else if key.length = 1 ∧ pyIsPrintable key then
    let cb := core.proc.command_buffer ++ key
    ({ success := true, message := str "Command: " ++ cb },
      { core with proc := { core.proc with command_buffer := cb } })
  else
    ({ success := false, error := some (str "Cannot handle key in command mode: " ++ key) }, core)

/-- `VimCommandProcessor.process_key`: the repeat-count digit check comes
before the per-mode dispatch (and `repeat_count` starts at 1, so the
first digit `d` yields `10 + d`); `REPLACE` mode falls through to the
"not implemented" failure (the enum `repr` in its message is elided). -/
def processKey (core : SimCore) (key : Str) : CommandResult × SimCore :=
  if pyIsDigit key ∧ key ≠ str "0" ∧ core.proc.command_buffer.isEmpty then
    let rc := core.proc.repeat_count * 10 + strToNat key
    ({ success := true, message := str "Count: " ++ natStr rc },
      { core with proc := { core.proc with repeat_count := rc } })
  else if core.mode_manager.current_mode = .normal then processNormalModeKey core key
  else if core.mode_manager.current_mode = .insert then processInsertModeKey core key
  else if core.mode_manager.is_visual_mode then processVisualModeKey core key
  else if core.mode_manager.current_mode = .command then processCommandModeKey core key
  else
    ({ success := false
       error := some (str "Mode " ++ core.mode_manager.current_mode.val ++
         str " not implemented") }, core)

/-- A fresh `SimCore` over the given initial content. -/
def SimCore.init (content : Str) : SimCore :=
  { buffer := VimBuffer.init content
    mode_manager := ModeManager.init
    proc := VimCommandProcessor.init }

/-! ## `simulator/simulator.py`

`display_lines` and `status_line` are pure rendering strings produced by
`_generate_display_lines` / `_generate_status_line`; no claim mentions
them and they are omitted from the response. -/

/-- `SimulatorResponse` (without the two rendering fields). -/
structure SimulatorResponse where
  success : Bool
  message : Str := []
  cursor_position : Nat × Nat := (0, 0)
  mode : VimMode := .normal
  buffer_content : List Str := []
  error : Option Str := none
deriving DecidableEq

/-- `VimSimulator`: the composed core plus display settings, state
tracking, and learning-mode flags. -/
structure VimSimulator where
  core : SimCore
  display_width : Nat
  display_height : Nat
  show_line_numbers : Bool
  highlight_cursor : Bool
  last_command : Str
  command_count : Nat
  error_message : Str
  learning_mode : Bool
  show_command_hints : Bool
  validate_commands : Bool
deriving DecidableEq

/-- `VimSimulator.__init__`. -/
def VimSimulator.init (initial_content : Str) : VimSimulator :=
  { core := SimCore.init initial_content
    display_width := 80
    display_height := 24
    show_line_numbers := true
    highlight_cursor := true
    last_command := []
    command_count := 0
    error_message := []
    learning_mode := true
    show_command_hints := true
    validate_commands := true }

/-- Python `a or dflt` for an optional string (`None` and the empty
string are both falsy). -/
def pyOrStr (a : Option Str) (dflt : Str) : Str :=
  match a with
  | some s => if s.isEmpty then dflt else s
  | none => dflt

/-- `VimSimulator.process_input`: run the key through the processor and
update the bookkeeping.  The surrounding `try/except` never fires in the
embedding (the processor is total; its internal faults are already
converted into failure results). -/
def VimSimulator.process_input (s : VimSimulator) (key_input : Str) :
    SimulatorResponse × VimSimulator :=
  let r := processKey s.core key_input
  let s1 := { s with
    core := r.2
    last_command := if r.1.success then key_input else s.last_command
    command_count := if r.1.success then s.command_count + 1 else s.command_count
    error_message := if r.1.success then [] else pyOrStr r.1.error (str "Command failed") }
  ({ success := r.1.success
     message := r.1.message
     cursor_position := s1.core.buffer.cursor_pos
     mode := s1.core.mode_manager.current_mode
     buffer_content := s1.core.buffer.lines
     error := r.1.error }, s1)

/-- `VimSimulator.reset`: rebuild buffer, mode manager, and processor
from scratch and clear the state tracking. -/
def VimSimulator.reset (s : VimSimulator) (content : Str) :
    SimulatorResponse × VimSimulator :=
  let s1 := { s with
    core := SimCore.init content
    last_command := []
    command_count := 0
    error_message := [] }
  ({ success := true
     message := str "Simulator reset"
     cursor_position := s1.core.buffer.cursor_pos
     mode := s1.core.mode_manager.current_mode
     buffer_content := s1.core.buffer.lines }, s1)

/-- The `display_settings` sub-dictionary of `get_current_state`. -/
structure DisplaySettings where
  width : Nat
  height : Nat
  line_numbers : Bool
  highlight_cursor : Bool
deriving DecidableEq

/-- The dictionary produced by `VimSimulator.get_current_state`. -/
structure SimStateDict where
  buffer_state : BufferStateDict
  mode_state : ModeStateDict
  cursor_position : Nat × Nat
  last_command : Str
  command_count : Nat
  display_settings : DisplaySettings
deriving DecidableEq

/-- `VimSimulator.get_current_state`. -/
def VimSimulator.get_current_state (s : VimSimulator) : SimStateDict :=
  { buffer_state := s.core.buffer.get_state
    mode_state := s.core.mode_manager.get_state
    cursor_position := s.core.buffer.cursor_pos
    last_command := s.last_command
    command_count := s.command_count
    display_settings :=
      { width := s.display_width
        height := s.display_height
        line_numbers := s.show_line_numbers
        highlight_cursor := s.highlight_cursor } }

/-- `VimSimulator.restore_state`: restore each component and recreate the
command processor.  With a well-typed state dictionary the `except`
fallback never fires, so the method returns `True`. -/
def VimSimulator.restore_state (s : VimSimulator) (state : SimStateDict) :
    Bool × VimSimulator :=
  (true, { s with
    core :=
      { buffer := s.core.buffer.restore_state state.buffer_state
        mode_manager := s.core.mode_manager.restore_state state.mode_state
        proc := VimCommandProcessor.init }
    last_command := state.last_command
    command_count := state.command_count
    display_width := state.display_settings.width
    display_height := state.display_settings.height
    show_line_numbers := state.display_settings.line_numbers
    highlight_cursor := state.display_settings.highlight_cursor })

/-- The `try` body of `validate_command_sequence`: feed the keys straight
to `command_processor.process_key`, short-circuiting on the first
failure (a `None` error field formats as "None"). -/
def runValidate : SimCore → List Str → (Bool × Str) × SimCore
  | c, [] => ((true, str "Command sequence is valid"), c)
  | c, cmd :: rest =>
    let r := processKey c cmd
    if r.1.success then runValidate r.2 rest
    else
      ((false, str "Invalid command '" ++ cmd ++ str "': " ++ (r.1.error.getD (str "None"))),
        r.2)

/-- `VimSimulator.validate_command_sequence`: snapshot, execute, and — in
a `finally` — restore the snapshot. -/
def VimSimulator.validate_command_sequence (s : VimSimulator) (commands : List Str) :
    (Bool × Str) × VimSimulator :=
  let original_state := s.get_current_state
  let r := runValidate s.core commands
  (r.1, (({ s with core := r.2 }).restore_state original_state).2)

/-! ## `features/exercise_engine.py`

`Exercise.validation_params` (a free-form dictionary) and
`time_limit`, the session object, and the wall-clock `start_time` are
omitted: no claim reaches a code path that reads them (completion
checking raises before any validator runs, see `check_completion`). -/

/-- `modules/base.py` `ExerciseResult`. -/
structure ExerciseResult where
  passed : Bool
  score : Nat
  feedback : Str
  time_taken : Option Nat := none
  hints_used : Nat := 0
  mistakes_made : Nat := 0
deriving DecidableEq

/-- `modules/base.py` `Exercise` (the fields the engine reads). -/
structure Exercise where
  id : Str
  title : Str
  description : Str
  instructions : Str
  expected_commands : List Str
  initial_text : Str := []
  validation_type : Str := str "commands"
  hints : List Str := []
deriving DecidableEq

/-- `ExerciseState` (without the wall-clock start time and the session
back-reference). -/
structure ExerciseState where
  exercise : Exercise
  commands_executed : List Str
  hints_used : Nat
  mistakes_made : Nat
  current_hint_index : Nat
  is_completed : Bool
deriving DecidableEq

/-- `ExerciseExecutionResult`. -/
structure ExerciseExecutionResult where
  success : Bool
  message : Str
  simulator_response : Option SimulatorResponse
  is_completed : Bool := false
  completion_result : Option ExerciseResult := none
deriving DecidableEq

/-- `ExerciseEngine` (the progress manager is an external collaborator
no modelled path touches). -/
structure ExerciseEngine where
  simulator : VimSimulator
  current_exercise : Option ExerciseState
deriving DecidableEq

/-- `ExerciseEngine.start_exercise`: reset the simulator, seed the
buffer from `initial_text` when non-empty, and install a fresh state. -/
def ExerciseEngine.start_exercise (e : ExerciseEngine) (exercise : Exercise) : ExerciseEngine :=
  let sim1 := (e.simulator.reset []).2
  let sim2 :=
    if ¬ exercise.initial_text.isEmpty then
      { sim1 with core :=
        { sim1.core with buffer := sim1.core.buffer.set_content exercise.initial_text } }
    else sim1
  { e with
    simulator := sim2
    current_exercise := some
      { exercise := exercise
        commands_executed := []
        hints_used := 0
        mistakes_made := 0
        current_hint_index := 0
        is_completed := false } }

/-- `ExerciseEngine._check_completion`.  With an active exercise the
method first builds its `current_state` dictionary, whose entry
`"current_mode": self.simulator.buffer.mode.value` reads the attribute
`mode` from the `VimBuffer` — an attribute `VimBuffer` never defines
(the mode lives on the `ModeManager`) — so the method raises
`AttributeError` before any validator is dispatched. -/
def ExerciseEngine.check_completion (e : ExerciseEngine) : Except Str (Option ExerciseResult) :=
  match e.current_exercise with
  | none => .ok none
  | some _ => .error (str "AttributeError: 'VimBuffer' object has no attribute 'mode'")

/-- `ExerciseEngine.execute_command`: forward to the simulator, append
the key to the executed log, bump the mistake counter when the log
diverges from the equal-length prefix of `expected_commands`, then check
completion — which raises, and nothing catches the exception.  (On the
never-reached success path with a completion result, Python would read
`completion_result.is_completed`, another attribute that does not exist
on `ExerciseResult`.) -/
def ExerciseEngine.execute_command (e : ExerciseEngine) (command : Str) :
    ExerciseEngine × Except Str ExerciseExecutionResult :=
  match e.current_exercise with
  | none =>
    (e, .ok { success := false, message := str "No active exercise", simulator_response := none })
  | some es =>
    let pi := e.simulator.process_input command
    let es1 := { es with commands_executed := es.commands_executed ++ [command] }
    let expected_so_far := es1.exercise.expected_commands.take es1.commands_executed.length
    let es2 :=
      if es1.commands_executed ≠ expected_so_far then
        { es1 with mistakes_made := es1.mistakes_made + 1 }
      else es1
    let e1 := { e with simulator := pi.2, current_exercise := some es2 }
    match e1.check_completion with
    | .error msg => (e1, .error msg)
    | .ok completion =>
      match completion with
      | some _ =>
        (e1, .error (str "AttributeError: 'ExerciseResult' object has no attribute 'is_completed'"))
      | none =>
        (e1, .ok
          { success := true
            message := str "Command executed"
            simulator_response := some pi.1
            is_completed := false
            completion_result := none })

/-! ## Auxiliary definitions used by the statements -/

/-- "`undo` on `b2` reports success and restores `b0`'s lines and cursor." -/
def undoRestores (b0 b2 : VimBuffer) : Prop :=
  (b2.undo).1 = true ∧ (b2.undo).2.lines = b0.lines ∧ (b2.undo).2.cursor_pos = b0.cursor_pos

instance {ε α : Type} [DecidableEq ε] [DecidableEq α] : DecidableEq (Except ε α) :=
  fun a b =>
    match a, b with
    | .error e1, .error e2 => decidable_of_iff (e1 = e2) (by simp)
    | .ok a1, .ok a2 => decidable_of_iff (a1 = a2) (by simp)
    | .error _, .ok _ => isFalse (by simp)
    | .ok _, .error _ => isFalse (by simp)

/-- The number of consecutive `undo()` calls that return true, counted
with enough fuel (a failed undo leaves the buffer unchanged, so the
count is also the total number of successful undos ever possible). -/
def undoCountAux : Nat → VimBuffer → Nat
  | 0, _ => 0
  | fuel + 1, b =>
    let r := b.undo
    if r.1 then undoCountAux fuel r.2 + 1 else 0

/-- The buffer after `n` `undo()` calls. -/
def undoIter (b : VimBuffer) : Nat → VimBuffer
  | 0 => b
  | n + 1 => undoIter (b.undo).2 n

/-- `n` successive single-character `insert_text("a")` calls. -/
def insertN (b : VimBuffer) (n : Nat) : VimBuffer :=
  Nat.repeat (fun bb => (bb.insert_text (str "a")).2) n b

/-- Feed a list of keys through `VimSimulator.process_input`. -/
def runInputs (s : VimSimulator) (keys : List Str) : VimSimulator :=
  keys.foldl (fun a k => (a.process_input k).2) s

/-! ## Helper lemmas: undo against the save-before-mutate discipline -/

theorem take_cons_of_two_le {α : Type} (a : α) (l : List α) (n : Nat) (h : 2 ≤ n) :
    (a :: l).take n = a :: l.take (n - 1) := by
  cases n with
  | zero => omega
  | succ k => simp [List.take_succ_cons]

/-- Every mutating buffer method has the shape "snapshot, then overwrite
`lines`, `cursor_pos`, and `modified`"; `undo` on such a result succeeds
and restores the pre-snapshot lines and cursor. -/
theorem undo_after_mutation (b : VimBuffer) (d : Str) (ls : List Str) (cp : Nat × Nat) (m : Bool)
    (hs : 1 ≤ b.undo_stack.length) (hm : 2 ≤ b.max_undo_levels) :
    ({ b.save_state d with lines := ls, cursor_pos := cp, modified := m } : VimBuffer).undo
      = (true, { b.save_state d with
          lines := b.lines
          cursor_pos := b.cursor_pos
          modified := m
          undo_stack := b.undo_stack.take (b.max_undo_levels - 1)
          redo_stack := [BufferState.mk ls cp (str "Current state")] }) := by
  unfold VimBuffer.undo VimBuffer.save_state
  rw [take_cons_of_two_le _ _ _ hm]
  have hlen : ¬ ((BufferState.mk b.lines b.cursor_pos d ::
      b.undo_stack.take (b.max_undo_levels - 1)).length ≤ 1) := by
    simp only [List.length_cons, List.length_take]
    omega
  rw [if_neg hlen]

theorem undoRestores_mutation (b : VimBuffer) (d : Str) (ls : List Str) (cp : Nat × Nat)
    (m : Bool) (hs : 1 ≤ b.undo_stack.length) (hm : 2 ≤ b.max_undo_levels) :
    undoRestores b ({ b.save_state d with lines := ls, cursor_pos := cp, modified := m } : VimBuffer) := by
  unfold undoRestores
  rw [undo_after_mutation b d ls cp m hs hm]
  exact ⟨rfl, rfl, rfl⟩

theorem insert_text_restores (b : VimBuffer) (t : Str)
    (hs : 1 ≤ b.undo_stack.length) (hm : 2 ≤ b.max_undo_levels)
    (h : (b.insert_text t).1 = true) :
    undoRestores b (b.insert_text t).2 := by
  unfold VimBuffer.insert_text at h ⊢
  by_cases he : t.isEmpty = true
  · rw [if_pos he] at h
    exact absurd h (by simp)
  · rw [if_neg he]
    simp only []
    by_cases hnl : t.contains '\n' = true
    · rw [if_pos hnl]
      by_cases hgt : (pySplitChar '\n' t).length > 1
      · rw [if_pos hgt]
        exact undoRestores_mutation b _ _ _ _ hs hm
      · rw [if_neg hgt]
        exact undoRestores_mutation b _ _ _ _ hs hm
    · rw [if_neg hnl]
      exact undoRestores_mutation b _ _ _ _ hs hm

theorem delete_char_at_cursor_restores (b : VimBuffer)
    (hs : 1 ≤ b.undo_stack.length) (hm : 2 ≤ b.max_undo_levels)
    (h : (b.delete_char_at_cursor).1 = true) :
    undoRestores b (b.delete_char_at_cursor).2 := by
  unfold VimBuffer.delete_char_at_cursor at h ⊢
  simp only [] at h ⊢
  by_cases h1 : b.cursor_pos.2 < (b.lines.getD b.cursor_pos.1 []).length
  · rw [if_pos h1]
    exact undoRestores_mutation b _ _ _ _ hs hm
  · rw [if_neg h1]
    by_cases h2 : b.cursor_pos.1 < b.lines.length - 1
    · rw [if_pos h2]
      exact undoRestores_mutation b _ _ _ _ hs hm
    · rw [if_neg h1, if_neg h2] at h
      exact absurd h (by simp)

theorem delete_char_before_cursor_restores (b : VimBuffer)
    (hs : 1 ≤ b.undo_stack.length) (hm : 2 ≤ b.max_undo_levels)
    (h : (b.delete_char_before_cursor).1 = true) :
    undoRestores b (b.delete_char_before_cursor).2 := by
  unfold VimBuffer.delete_char_before_cursor at h ⊢
  simp only [] at h ⊢
  by_cases h1 : b.cursor_pos.2 > 0
  · rw [if_pos h1]
    exact undoRestores_mutation b _ _ _ _ hs hm
  · rw [if_neg h1]
    by_cases h2 : b.cursor_pos.1 > 0
    · rw [if_pos h2]
      exact undoRestores_mutation b _ _ _ _ hs hm
    · rw [if_neg h1, if_neg h2] at h
      exact absurd h (by simp)

theorem delete_line_restores (b : VimBuffer) (n : Option Nat)
    (hs : 1 ≤ b.undo_stack.length) (hm : 2 ≤ b.max_undo_levels)
    (h : (b.delete_line n).1 = true) :
    undoRestores b (b.delete_line n).2 := by
  unfold VimBuffer.delete_line at h ⊢
  simp only [] at h ⊢
  by_cases h1 : n.getD b.cursor_pos.1 < b.lines.length
  · rw [if_pos h1]
    by_cases h2 : (b.save_state (str "Delete line " ++ natStr (n.getD b.cursor_pos.1 + 1))).lines.length = 1
    · rw [if_pos h2]
      exact undoRestores_mutation b _ _ _ _ hs hm
    · rw [if_neg h2]
      exact undoRestores_mutation b _ _ _ _ hs hm
  · rw [if_neg h1] at h
    exact absurd h (by simp)

theorem insert_line_below_restores (b : VimBuffer) (c : Str)
    (hs : 1 ≤ b.undo_stack.length) (hm : 2 ≤ b.max_undo_levels) :
    undoRestores b (b.insert_line_below c).2 := by
  unfold VimBuffer.insert_line_below
  exact undoRestores_mutation b _ _ _ _ hs hm

theorem insert_line_above_restores (b : VimBuffer) (c : Str)
    (hs : 1 ≤ b.undo_stack.length) (hm : 2 ≤ b.max_undo_levels) :
    undoRestores b (b.insert_line_above c).2 := by
  unfold VimBuffer.insert_line_above
  exact undoRestores_mutation b _ _ _ _ hs hm

theorem set_content_restores (b : VimBuffer) (c : Str)
    (hs : 1 ≤ b.undo_stack.length) (hm : 2 ≤ b.max_undo_levels) :
    undoRestores b (b.set_content c) := by
  unfold VimBuffer.set_content
  exact undoRestores_mutation b _ _ _ _ hs hm

theorem undo_noop_at_floor (b : VimBuffer) (h : b.undo_stack.length ≤ 1) :
    b.undo = (false, b) := by
  unfold VimBuffer.undo
  rw [if_pos h]

/-- `undo` never touches `modified`, the visual anchors, or `filename`. -/
theorem undo_frame (b : VimBuffer) :
    (b.undo).2.modified = b.modified ∧ (b.undo).2.visual_start = b.visual_start ∧
      (b.undo).2.visual_end = b.visual_end ∧ (b.undo).2.filename = b.filename := by
  unfold VimBuffer.undo
  split
  · exact ⟨rfl, rfl, rfl, rfl⟩
  · split
    · exact ⟨rfl, rfl, rfl, rfl⟩
    · exact ⟨rfl, rfl, rfl, rfl⟩

theorem insert_text_modified (b : VimBuffer) (t : Str) (h : (b.insert_text t).1 = true) :
    (b.insert_text t).2.modified = true := by
  unfold VimBuffer.insert_text at h ⊢
  by_cases he : t.isEmpty = true
  · rw [if_pos he] at h
    exact absurd h (by simp)
  · rw [if_neg he]
    simp only []
    by_cases hnl : t.contains '\n' = true
    · rw [if_pos hnl]
      by_cases hgt : (pySplitChar '\n' t).length > 1
      · rw [if_pos hgt]
      · rw [if_neg hgt]
    · rw [if_neg hnl]

theorem delete_char_at_cursor_modified (b : VimBuffer) (h : (b.delete_char_at_cursor).1 = true) :
    (b.delete_char_at_cursor).2.modified = true := by
  unfold VimBuffer.delete_char_at_cursor at h ⊢
  simp only [] at h ⊢
  by_cases h1 : b.cursor_pos.2 < (b.lines.getD b.cursor_pos.1 []).length
  · rw [if_pos h1]
  · rw [if_neg h1]
    by_cases h2 : b.cursor_pos.1 < b.lines.length - 1
    · rw [if_pos h2]
    · rw [if_neg h1, if_neg h2] at h
      exact absurd h (by simp)

theorem delete_char_before_cursor_modified (b : VimBuffer)
    (h : (b.delete_char_before_cursor).1 = true) :
    (b.delete_char_before_cursor).2.modified = true := by
  unfold VimBuffer.delete_char_before_cursor at h ⊢
  simp only [] at h ⊢
  by_cases h1 : b.cursor_pos.2 > 0
  · rw [if_pos h1]
  · rw [if_neg h1]
    by_cases h2 : b.cursor_pos.1 > 0
    · rw [if_pos h2]
    · rw [if_neg h1, if_neg h2] at h
      exact absurd h (by simp)

theorem delete_line_modified (b : VimBuffer) (n : Option Nat) (h : (b.delete_line n).1 = true) :
    (b.delete_line n).2.modified = true := by
  unfold VimBuffer.delete_line at h ⊢
  simp only [] at h ⊢
  by_cases h1 : n.getD b.cursor_pos.1 < b.lines.length
  · rw [if_pos h1]
    by_cases h2 : (b.save_state (str "Delete line " ++ natStr (n.getD b.cursor_pos.1 + 1))).lines.length = 1
    · rw [if_pos h2]
    · rw [if_neg h2]
  · rw [if_neg h1] at h
    exact absurd h (by simp)

/-! ## Claim theorems -/

/-- Claim C1: for every buffer (with the program's invariant that the
undo stack is non-empty and the configured limit is at least 2 — every
buffer the program builds has `max_undo_levels = 100` and at least the
initial snapshot), each of the mutating operations that applies
successfully is inverted exactly by an immediate `undo()` — it returns
true and restores the pre-operation lines and cursor — and when the
undo stack holds only the initial snapshot, `undo()` returns false and
changes nothing. -/
theorem undo_inverts_each_mutation (b : VimBuffer)
    (hs : 1 ≤ b.undo_stack.length) (hm : 2 ≤ b.max_undo_levels) :
    (∀ t, (b.insert_text t).1 = true → undoRestores b (b.insert_text t).2)
    ∧ ((b.delete_char_at_cursor).1 = true → undoRestores b (b.delete_char_at_cursor).2)
    ∧ ((b.delete_char_before_cursor).1 = true → undoRestores b (b.delete_char_before_cursor).2)
    ∧ (∀ n, (b.delete_line n).1 = true → undoRestores b (b.delete_line n).2)
    ∧ (∀ c, (b.insert_line_below c).1 = true → undoRestores b (b.insert_line_below c).2)
    ∧ (∀ c, (b.insert_line_above c).1 = true → undoRestores b (b.insert_line_above c).2)
    ∧ (∀ c, undoRestores b (b.set_content c))
    ∧ (b.undo_stack.length = 1 → b.undo = (false, b)) :=
  ⟨fun t ht => insert_text_restores b t hs hm ht,
   fun h => delete_char_at_cursor_restores b hs hm h,
   fun h => delete_char_before_cursor_restores b hs hm h,
   fun n h => delete_line_restores b n hs hm h,
   fun c _ => insert_line_below_restores b c hs hm,
   fun c _ => insert_line_above_restores b c hs hm,
   fun c => set_content_restores b c hs hm,
   fun h => undo_noop_at_floor b (by omega)⟩

/-- Claim C1, witnessed on a fresh empty buffer and the insertion of
`"a"`. -/
theorem undo_inverts_each_mutation_witness :
    (1 ≤ (VimBuffer.init (str "")).undo_stack.length
      ∧ 2 ≤ (VimBuffer.init (str "")).max_undo_levels
      ∧ ((VimBuffer.init (str "")).insert_text (str "a")).1 = true)
    ∧ undoRestores (VimBuffer.init (str ""))
        ((VimBuffer.init (str "")).insert_text (str "a")).2 :=
  ⟨⟨by decide, by decide, by decide⟩,
    (undo_inverts_each_mutation (VimBuffer.init (str "")) (by decide) (by decide)).1
      (str "a") (by decide)⟩

/-- Claim C10: `undo()` changes only the lines and the cursor: the
`modified` flag, both visual anchors, and `filename` are left exactly as
they were; in particular, after any successful mutation (which sets
`modified = True`), undoing it still leaves `modified = True`. -/
theorem undo_changes_only_lines_and_cursor (b : VimBuffer) :
    ((b.undo).2.modified = b.modified
      ∧ (b.undo).2.visual_start = b.visual_start
      ∧ (b.undo).2.visual_end = b.visual_end
      ∧ (b.undo).2.filename = b.filename)
    ∧ (∀ t, (b.insert_text t).1 = true → (((b.insert_text t).2).undo).2.modified = true)
    ∧ ((b.delete_char_at_cursor).1 = true → (((b.delete_char_at_cursor).2).undo).2.modified = true)
    ∧ ((b.delete_char_before_cursor).1 = true →
        (((b.delete_char_before_cursor).2).undo).2.modified = true)
    ∧ (∀ n, (b.delete_line n).1 = true → (((b.delete_line n).2).undo).2.modified = true)
    ∧ (∀ c, (((b.insert_line_below c).2).undo).2.modified = true)
    ∧ (∀ c, (((b.insert_line_above c).2).undo).2.modified = true)
    ∧ (∀ c, ((b.set_content c).undo).2.modified = true) :=
  ⟨undo_frame b,
   fun t ht => ((undo_frame _).1).trans (insert_text_modified b t ht),
   fun h => ((undo_frame _).1).trans (delete_char_at_cursor_modified b h),
   fun h => ((undo_frame _).1).trans (delete_char_before_cursor_modified b h),
   fun n h => ((undo_frame _).1).trans (delete_line_modified b n h),
   fun _c => ((undo_frame _).1).trans rfl,
   fun _c => ((undo_frame _).1).trans rfl,
   fun _c => ((undo_frame _).1).trans rfl⟩

/-- Claim C10, witnessed on a fresh buffer holding `"hi"` and the
deletion of the character under the cursor. -/
theorem undo_changes_only_lines_and_cursor_witness :
    ((VimBuffer.init (str "hi")).delete_char_at_cursor).1 = true
    ∧ ((((VimBuffer.init (str "hi")).delete_char_at_cursor).2).undo).2.modified = true :=
  ⟨by decide,
    (undo_changes_only_lines_and_cursor (VimBuffer.init (str "hi"))).2.2.1 (by decide)⟩

/-- Claim C2 (code bug): after a fresh buffer receives `insert_text "a"`
and a successful `undo()` — so the redo stack holds exactly one entry —
`redo()` does not return true and restore the pre-undo state: it raises
`IndexError` (`save_state` clears the redo stack before the `pop`), with
the spurious undo snapshot already pushed. -/
theorem redo_after_undo_raises_indexerror :
    ((((VimBuffer.init (str "")).insert_text (str "a")).2.undo).2.redo_stack.length = 1)
    ∧ ((((VimBuffer.init (str "")).insert_text (str "a")).2.undo).2.redo
        = Except.error (str "pop from empty list",
            ((((VimBuffer.init (str "")).insert_text (str "a")).2.undo).2.save_state
              (str "Redo operation")))) := by
  constructor
  · decide
  · decide

/-- Claim C3: switching to any target outside the current mode's legal
transition set — in particular to the current mode itself, and to Visual
from Insert — returns false and leaves `current_mode`, `previous_mode`,
and `mode_history` unchanged (the whole manager is returned as-is). -/
theorem illegal_mode_switch_rejected :
    (∀ (m : ModeManager) (t : VimMode),
      m.can_transition_to t = false → m.switch_mode t = (false, m))
    ∧ (∀ m : ModeManager, m.switch_mode m.current_mode = (false, m))
    ∧ (∀ m : ModeManager, m.current_mode = VimMode.insert →
        m.switch_mode VimMode.visual = (false, m)) := by
  have hbase : ∀ (m : ModeManager) (t : VimMode),
      m.can_transition_to t = false → m.switch_mode t = (false, m) := by
    intro m t h
    unfold ModeManager.switch_mode
    rw [h]
    simp
  have hself : ∀ mo : VimMode, (valid_transitions mo).contains mo = false := by
    intro mo
    cases mo <;> decide
  refine ⟨hbase, ?_, ?_⟩
  · intro m
    exact hbase m m.current_mode (hself m.current_mode)
  · intro m h
    apply hbase
    unfold ModeManager.can_transition_to
    rw [h]
    decide

/-- Claim C3, witnessed on the reachable Insert-mode manager: the direct
Insert → Visual switch is refused without any state change. -/
theorem illegal_mode_switch_rejected_witness :
    ((ModeManager.init.switch_mode VimMode.insert).2.current_mode = VimMode.insert)
    ∧ ((ModeManager.init.switch_mode VimMode.insert).2.switch_mode VimMode.visual
        = (false, (ModeManager.init.switch_mode VimMode.insert).2)) :=
  ⟨by decide,
    illegal_mode_switch_rejected.2.2 (ModeManager.init.switch_mode VimMode.insert).2 (by decide)⟩

/-- Claim C5 (code bug): after `start_exercise` with ANY exercise, every
`execute_command(key)` raises `AttributeError` out of
`_check_completion` (which reads the non-existent `buffer.mode`
attribute) instead of returning an `ExerciseExecutionResult`. -/
theorem exercise_execute_command_raises (e : ExerciseEngine) (ex : Exercise) (key : Str) :
    ((e.start_exercise ex).execute_command key).2
      = Except.error (str "AttributeError: 'VimBuffer' object has no attribute 'mode'") := rfl

/-- Claim C6 (code bug): in Normal mode with an empty command buffer, on
a 200-character line, pressing '3' sets the pending repeat count to 13
(it starts at 1 and accumulates as `1*10+3`), and the following 'l'
executes the count twice over (the execute loop runs it 13 times and
each run moves 13 columns), landing at column 169 — not at column 3 as
the claim requires. -/
theorem repeat_count_accumulation_and_double_application :
    ((processKey (SimCore.init (List.replicate 200 'a')) (str "3")).2.proc.repeat_count = 13)
    ∧ ((processKey ((processKey (SimCore.init (List.replicate 200 'a')) (str "3")).2)
        (str "l")).2.buffer.cursor_pos = (0, 169))
    ∧ (((0, 169) : Nat × Nat) ≠ (0, 3)) :=
  ⟨by decide, by decide, by decide⟩

/-- Claim C7 (code bug): on the one-line buffer `"hello.world"` with the
cursor at column 0 in Normal mode, the word motion 'w' lands at column 6
(the start of `world`), not at column 5 on the '.', and the WORD motion
'W' — whose handler simply delegates to the word motion — lands at the
same column 6, so the two motions do not differ as the claim requires. -/
theorem word_and_WORD_motions_coincide :
    ((processKey (SimCore.init (str "hello.world")) (str "w")).2.buffer.cursor_pos = (0, 6))
    ∧ ((processKey (SimCore.init (str "hello.world")) (str "W")).2.buffer.cursor_pos = (0, 6))
    ∧ (((0, 6) : Nat × Nat) ≠ (0, 5)) :=
  ⟨by decide, by decide, by decide⟩

/-- Claim C8 (counterexample): starting from a fresh buffer, 105
single-character insertions followed by repeated `undo()` yield 99
successful undos, not `max_undo_levels = 100` as the claim states. -/
theorem undo_at_limit_not_max_undo_levels :
    ¬ (undoCountAux 200 (insertN (VimBuffer.init (str "")) 105) = 100) := by
  decide

/-- Claim C8 (amended): starting from a fresh buffer, 105 successful
single-character `insert_text` calls followed by repeated `undo()` yield
exactly `max_undo_levels - 1 = 99` calls that return true (the eviction
keeps the newest 100 snapshots and `undo` always retains one snapshot as
the floor), after which the buffer is a fixed point of `undo` and every
further call returns false. -/
theorem undo_at_limit_ninety_nine :
    (undoCountAux 200 (insertN (VimBuffer.init (str "")) 105) = 99)
    ∧ ((undoIter (insertN (VimBuffer.init (str "")) 105) 99).undo
        = (false, undoIter (insertN (VimBuffer.init (str "")) 105) 99)) :=
  ⟨by decide, by decide⟩

/-- Claim C9 (code bug): `delete_line` on the only line of `"hello"`
with the (reachable) cursor at column 3 clears the line to the empty
string and keeps at least one line, but leaves the cursor at column 3 —
an invalid position on the now-empty line, because the single-line
branch never clamps the cursor. -/
theorem delete_only_line_leaves_invalid_cursor :
    ((((VimBuffer.init (str "hello")).move_cursor "right" 3).2.delete_line none).1 = true)
    ∧ ((((VimBuffer.init (str "hello")).move_cursor "right" 3).2.delete_line none).2.lines = [[]])
    ∧ ((((VimBuffer.init (str "hello")).move_cursor "right" 3).2.delete_line
        none).2.cursor_pos = (0, 3))
    ∧ ((((VimBuffer.init (str "hello")).move_cursor "right" 3).2.delete_line
        none).2.is_valid_position 0 3 = false) :=
  ⟨by decide, by decide, by decide, by decide⟩

/-! ## Claim C4: validate_command_sequence and observable state -/

theorem fromVal_val (m : VimMode) : VimMode.fromVal m.val = some m := by
  cases m <;> rfl

theorem parseModes_map_val (l : List VimMode) : parseModes (l.map VimMode.val) = some l := by
  induction l with
  | nil => rfl
  | cons a t ih => simp [parseModes, fromVal_val, ih]

theorem clamp_position_of_valid (b : VimBuffer) (line col : Nat)
    (h : b.is_valid_position line col = true) : b.clamp_position line col = (line, col) := by
  unfold VimBuffer.is_valid_position at h
  by_cases h1 : line ≥ b.lines.length
  · rw [if_pos h1] at h
    cases h
  · rw [if_neg h1] at h
    have h2 : col ≤ (b.lines.getD line []).length := of_decide_eq_true h
    unfold VimBuffer.clamp_position
    simp only []
    have hl : min line (b.lines.length - 1) = line := by omega
    rw [hl]
    have hcc : min col (b.lines.getD line []).length = col := by omega
    rw [hcc]

theorem buffer_get_restore_get (b0 b : VimBuffer)
    (hc : b.is_valid_position b.cursor_pos.1 b.cursor_pos.2 = true) :
    (b0.restore_state b.get_state).get_state = b.get_state := by
  unfold VimBuffer.restore_state VimBuffer.get_state
  simp only []
  congr 1
  exact clamp_position_of_valid _ _ _ hc

theorem mode_get_restore_get (m0 m : ModeManager) :
    (m0.restore_state m.get_state).get_state = m.get_state := by
  unfold ModeManager.restore_state ModeManager.get_state
  rw [fromVal_val, fromVal_val, parseModes_map_val]
  simp only []
  have h0 : (m.mode_history.drop (m.mode_history.length - 10)).length - 10 = 0 := by
    rw [List.length_drop]
    omega
  rw [h0, List.drop_zero]

/-- Restoring a snapshot of a state whose cursor is valid reproduces the
snapshot exactly, whatever state the restore is applied to. -/
theorem get_after_restore (s0 s : VimSimulator)
    (hc : s.core.buffer.is_valid_position s.core.buffer.cursor_pos.1
      s.core.buffer.cursor_pos.2 = true) :
    ((s0.restore_state s.get_current_state).2).get_current_state = s.get_current_state := by
  unfold VimSimulator.restore_state VimSimulator.get_current_state
  simp only []
  congr 1
  · exact buffer_get_restore_get _ _ hc
  · exact mode_get_restore_get _ _
  · exact clamp_position_of_valid _ _ _ hc

/-- Claim C4 (counterexample): on the reachable simulator state got by
pressing `l l l d d` on `"hello"` — whose buffer is a single empty line
with the cursor left at the invalid column 3 by the delete-line bug —
`validate_command_sequence([])` does NOT preserve `get_current_state()`:
the `finally` restore clamps the cursor to column 0. -/
theorem validate_alters_state_with_invalid_cursor :
    ((runInputs (VimSimulator.init (str "hello"))
        [str "l", str "l", str "l", str "d", str "d"]).get_current_state.cursor_position
      = (0, 3))
    ∧ (((runInputs (VimSimulator.init (str "hello"))
        [str "l", str "l", str "l", str "d", str "d"]).validate_command_sequence
          []).2.get_current_state.cursor_position = (0, 0))
    ∧ (((runInputs (VimSimulator.init (str "hello"))
        [str "l", str "l", str "l", str "d", str "d"]).validate_command_sequence
          []).2.get_current_state
        ≠ (runInputs (VimSimulator.init (str "hello"))
            [str "l", str "l", str "l", str "d", str "d"]).get_current_state) :=
  ⟨by decide, by decide, by decide⟩

/-- Claim C4 (amended): for every simulator state whose cursor position
is valid in its buffer (line in range, column at most the line length —
the clamp applied by the restore is then the identity), and for EVERY
list of keys, `validate_command_sequence` executes the keys and then
restores the prior state, so `get_current_state()` afterwards equals its
value before the call, whether or not the sequence was reported valid. -/
theorem validate_preserves_valid_cursor_state (s : VimSimulator) (commands : List Str)
    (hc : s.core.buffer.is_valid_position s.core.buffer.cursor_pos.1
      s.core.buffer.cursor_pos.2 = true) :
    ((s.validate_command_sequence commands).2).get_current_state = s.get_current_state := by
  unfold VimSimulator.validate_command_sequence
  simp only []
  exact get_after_restore _ s hc

/-- Claim C4 (amended), witnessed on a fresh `"hello"` simulator with
the key list `["l"]` (an executed, then rolled-back, cursor move). -/
theorem validate_preserves_valid_cursor_state_witness :
    ((VimSimulator.init (str "hello")).core.buffer.is_valid_position
      (VimSimulator.init (str "hello")).core.buffer.cursor_pos.1
      (VimSimulator.init (str "hello")).core.buffer.cursor_pos.2 = true)
    ∧ (((VimSimulator.init (str "hello")).validate_command_sequence
        [str "l"]).2.get_current_state = (VimSimulator.init (str "hello")).get_current_state) :=
  ⟨by decide,
    validate_preserves_valid_cursor_state (VimSimulator.init (str "hello")) [str "l"] (by decide)⟩

end VimGym
